import Mathlib

/-!
Shallow embedding of the health-monitoring library core
(src/src/health_monitoring_lib/rust) in Lean 4.

Machine integers (u32 timestamps, packed u64 snapshots) are modelled as
Nat with the exact bit masks and shifts of the source; u32-typed inputs
are constrained by hypotheses (< 2^32) where a theorem needs them.
Monotonic clock reads (std::time::Instant) are passed in as explicit
millisecond parameters.  HashMaps become association lists with the
first-match lookup/update semantics of a map with unique keys.
-/

deriving instance DecidableEq for Except

namespace HealthMonLib

/-- Tags (IdentTag / MonitorTag / StateTag / DeadlineTag) are
byte-identity string tags; modelled by their (injectively encoded)
identity as a Nat. -/
abbrev Tag := Nat

/-- Monitor evaluation errors delivered to the worker callback
(common.rs `MonitorEvaluationError`, plus the heartbeat/logic variants
converted via their `Into` impls). -/
inductive MonitorEvaluationError
  | TooEarly
  | TooLate
  | MultipleHeartbeats
  | InvalidState
  | InvalidTransition
deriving DecidableEq, Repr

/-- Health monitor errors (lib.rs `HealthMonitorError`). -/
inductive HealthMonitorError
  | NotFound
  | InvalidArgument
  | WrongState
deriving DecidableEq, Repr

/-- C-ABI result codes (ffi.rs `FFICode`). -/
inductive FFICode
  | Success
  | NullParameter
  | NotFound
  | AlreadyExists
  | InvalidArgument
  | WrongState
  | Failed
deriving DecidableEq, Repr

/-! ### Bit-manipulation helper lemmas -/

/-- A value shifted up by 32 bits has no bits in common with a mask
below 2^32. -/
theorem shiftLeft32_and_small (t c : Nat) (hc : c < 2 ^ 32) :
    (t <<< 32) &&& c = 0 := by
  apply Nat.eq_of_testBit_eq
  intro i
  simp only [Nat.testBit_and, Nat.testBit_shiftLeft, Nat.zero_testBit]
  by_cases h : 32 ≤ i
  · have hci : c.testBit i = false :=
      Nat.testBit_lt_two_pow
        (lt_of_lt_of_le hc (Nat.pow_le_pow_right (by norm_num) h))
    simp [hci]
  · simp [h]

/-- Masks of the shape `2^64 - 2^k` (k ≤ 32) keep a u32 value shifted
up by 32 bits intact. -/
theorem shiftLeft32_and_highMask (t k : Nat) (ht : t < 2 ^ 32) (hk : k ≤ 32) :
    (t <<< 32) &&& (2 ^ 64 - 2 ^ k) = t <<< 32 := by
  have h64 : 64 - k + k = 64 := by omega
  have hmask : (2 : Nat) ^ 64 - 2 ^ k = (2 ^ (64 - k) - 1) <<< k := by
    rw [Nat.shiftLeft_eq, Nat.sub_mul, one_mul, ← pow_add, h64]
  rw [hmask]
  apply Nat.eq_of_testBit_eq
  intro i
  simp only [Nat.testBit_and, Nat.testBit_shiftLeft, Nat.testBit_two_pow_sub_one]
  by_cases h32 : 32 ≤ i
  · by_cases hbit : t.testBit (i - 32) = true
    · have hi : i - 32 < 32 := by
        by_contra hcon
        have hfalse : t.testBit (i - 32) = false :=
          Nat.testBit_lt_two_pow
            (lt_of_lt_of_le ht (Nat.pow_le_pow_right (by norm_num) (le_of_not_lt hcon)))
        rw [hfalse] at hbit
        exact Bool.false_ne_true hbit
      have hki : k ≤ i := le_trans hk h32
      have hik : i - k < 64 - k := by omega
      simp [h32, hbit, hki, hik]
    · simp [hbit]
  · simp [h32]

/-- Unshifting a u32 value that was shifted up by 32 bits. -/
theorem shiftLeft32_shiftRight32 (t : Nat) : (t <<< 32) >>> 32 = t := by
  rw [Nat.shiftLeft_eq, Nat.shiftRight_eq_div_pow]
  exact Nat.mul_div_cancel t (by norm_num)

/-- A value or-ed with 8 is non-zero (bit 3 is set). -/
theorem or_eight_ne_zero (x : Nat) : x ||| 8 ≠ 0 := by
  intro h
  have hbit : (x ||| 8).testBit 3 = (x.testBit 3 || Nat.testBit 8 3) := Nat.testBit_or x 8 3
  rw [h] at hbit
  have h8 : Nat.testBit 8 3 = true := by decide
  rw [h8] at hbit
  simp at hbit

/-! ### Heartbeat state (heartbeat/heartbeat_state.rs)

Packed u64 layout: bits 32-63 cycle start timestamp, bits 3-31 heartbeat
timestamp offset, bits 1-2 saturating counter, bit 0 post-init flag. -/

def START_MASK : Nat := 0xFFFFFFFF00000000
def BEAT_MASK : Nat := 0x00000000FFFFFFF8
def COUNT_MASK : Nat := 0b0110
def POST_INIT_MASK : Nat := 0b0001

/-- `!START_MASK` on u64. -/
def NOT_START_MASK : Nat := 0x00000000FFFFFFFF
/-- `!BEAT_MASK` on u64. -/
def NOT_BEAT_MASK : Nat := 0xFFFFFFFF00000007
/-- `!COUNT_MASK` on u64. -/
def NOT_COUNT_MASK : Nat := 0xFFFFFFFFFFFFFFF9
/-- `!POST_INIT_MASK` on u64. -/
def NOT_POST_INIT_MASK : Nat := 0xFFFFFFFFFFFFFFFE

/-- Snapshot of a heartbeat state (`HeartbeatStateSnapshot(u64)`). -/
structure HeartbeatStateSnapshot where
  val : Nat
deriving DecidableEq, Repr

namespace HeartbeatStateSnapshot

/-- Cycle start timestamp. -/
def start_timestamp (s : HeartbeatStateSnapshot) : Nat :=
  (s.val &&& START_MASK) >>> 32

/-- Set cycle start timestamp. -/
def set_start_timestamp (s : HeartbeatStateSnapshot) (value : Nat) : HeartbeatStateSnapshot :=
  ⟨(value <<< 32) ||| (s.val &&& NOT_START_MASK)⟩

/-- Heartbeat timestamp offset. -/
def heartbeat_timestamp_offset (s : HeartbeatStateSnapshot) : Nat :=
  (s.val &&& BEAT_MASK) >>> 3

/-- Set heartbeat timestamp offset (asserts `value < 2^29` in the source). -/
def set_heartbeat_timestamp_offset (s : HeartbeatStateSnapshot) (value : Nat) :
    HeartbeatStateSnapshot :=
  ⟨(value <<< 3) ||| (s.val &&& NOT_BEAT_MASK)⟩

/-- Heartbeat counter (2 bits). -/
def counter (s : HeartbeatStateSnapshot) : Nat :=
  (s.val &&& COUNT_MASK) >>> 1

/-- Increment heartbeat counter, saturating at 3. -/
def increment_counter (s : HeartbeatStateSnapshot) : HeartbeatStateSnapshot :=
  ⟨(min (s.counter + 1) 3 <<< 1) ||| (s.val &&& NOT_COUNT_MASK)⟩

/-- Post-init flag: `false` only before the first concluded cycle. -/
def post_init (s : HeartbeatStateSnapshot) : Bool :=
  s.val &&& POST_INIT_MASK != 0

/-- Set post-init flag. -/
def set_post_init (s : HeartbeatStateSnapshot) (value : Bool) : HeartbeatStateSnapshot :=
  ⟨(if value then 1 else 0) ||| (s.val &&& NOT_POST_INIT_MASK)⟩

/-- Default snapshot (all-zero). -/
def zero : HeartbeatStateSnapshot := ⟨0⟩

/-- Create a new snapshot with a known starting point; the post-init
flag is implicitly set to 1 (`HeartbeatStateSnapshot::new`). -/
def new (start : Nat) : HeartbeatStateSnapshot :=
  (zero.set_start_timestamp start).set_post_init true

end HeartbeatStateSnapshot

/-- For a cycle start below the u32 ceiling, `new` yields the packed
word `start <<< 32 ||| 1`. -/
theorem heartbeat_new_val (t : Nat) (ht : t < 2 ^ 32) :
    (HeartbeatStateSnapshot.new t).val = (t <<< 32) ||| 1 := by
  show (1 ||| (((t <<< 32) ||| (0 &&& NOT_START_MASK)) &&& NOT_POST_INIT_MASK)) = (t <<< 32) ||| 1
  rw [Nat.zero_and, Nat.or_zero]
  have hnot : NOT_POST_INIT_MASK = 2 ^ 64 - 2 ^ 1 := by decide
  rw [hnot, shiftLeft32_and_highMask t 1 ht (by norm_num), Nat.or_comm]

/-- Field values of a freshly started heartbeat cycle. -/
theorem heartbeat_new_fields (t : Nat) (ht : t < 2 ^ 32) :
    (HeartbeatStateSnapshot.new t).start_timestamp = t ∧
    (HeartbeatStateSnapshot.new t).heartbeat_timestamp_offset = 0 ∧
    (HeartbeatStateSnapshot.new t).counter = 0 ∧
    (HeartbeatStateSnapshot.new t).post_init = true := by
  have hval := heartbeat_new_val t ht
  refine ⟨?_, ?_, ?_, ?_⟩
  · show ((HeartbeatStateSnapshot.new t).val &&& START_MASK) >>> 32 = t
    rw [hval, Nat.and_distrib_right]
    have h1 : 1 &&& START_MASK = 0 := by decide
    have hS : START_MASK = 2 ^ 64 - 2 ^ 32 := by decide
    rw [h1, Nat.or_zero, hS, shiftLeft32_and_highMask t 32 ht le_rfl,
      shiftLeft32_shiftRight32]
  · show ((HeartbeatStateSnapshot.new t).val &&& BEAT_MASK) >>> 3 = 0
    rw [hval, Nat.and_distrib_right]
    have h1 : 1 &&& BEAT_MASK = 0 := by decide
    have hB : (t <<< 32) &&& BEAT_MASK = 0 :=
      shiftLeft32_and_small t BEAT_MASK (by decide)
    rw [h1, hB]
    decide
  · show ((HeartbeatStateSnapshot.new t).val &&& COUNT_MASK) >>> 1 = 0
    rw [hval, Nat.and_distrib_right]
    have h1 : 1 &&& COUNT_MASK = 0 := by decide
    have hC : (t <<< 32) &&& COUNT_MASK = 0 :=
      shiftLeft32_and_small t COUNT_MASK (by decide)
    rw [h1, hC]
    decide
  · show ((HeartbeatStateSnapshot.new t).val &&& POST_INIT_MASK != 0) = true
    rw [hval, Nat.and_distrib_right]
    have h1 : 1 &&& POST_INIT_MASK = 1 := by decide
    have hP : (t <<< 32) &&& POST_INIT_MASK = 0 :=
      shiftLeft32_and_small t POST_INIT_MASK (by decide)
    rw [h1, hP]
    decide

/-! ### Heartbeat monitor (heartbeat/heartbeat_monitor.rs) -/

/-- Heartbeat evaluation errors. -/
inductive HeartbeatEvaluationError
  | TooEarly
  | TooLate
  | MultipleHeartbeats
deriving DecidableEq, Repr

/-- `Into<MonitorEvaluationError>` for heartbeat errors. -/
def HeartbeatEvaluationError.into : HeartbeatEvaluationError → MonitorEvaluationError
  | .TooEarly => .TooEarly
  | .TooLate => .TooLate
  | .MultipleHeartbeats => .MultipleHeartbeats

/-- Time range using u32 milliseconds (`InternalRange`). -/
structure InternalRange where
  min : Nat
  max : Nat
deriving DecidableEq, Repr

/-- Create range with values offset by a timestamp
(`InternalRange::offset`). -/
def InternalRange.offset (r : InternalRange) (timestamp : Nat) : InternalRange :=
  ⟨r.min + timestamp, r.max + timestamp⟩

namespace HeartbeatMonitorInner

/-- The cycle starting point used by `evaluate`: the recorded snapshot
start after the first concluded cycle, else the offset between the
monitor starting point and the HMON starting point. -/
def cycle_start (offset : Nat) (s : HeartbeatStateSnapshot) : Nat :=
  if s.post_init then s.start_timestamp else offset

/-- The absolute heartbeat timestamp used by `evaluate`: snapshot start
plus recorded beat offset after the first concluded cycle, else the
recorded beat offset relative to the zero point. -/
def beat_time (offset : Nat) (s : HeartbeatStateSnapshot) : Nat :=
  if s.post_init then s.start_timestamp + s.heartbeat_timestamp_offset
  else s.heartbeat_timestamp_offset

/-- `HeartbeatMonitorInner::evaluate`.  `offset` is the value of the
`hmon_time_offset(hmon_starting_point, monitor_starting_point)` helper
(the millisecond offset between the monitor starting point and the HMON
starting point) and `elapsed` the value of
`duration_to_u32(hmon_starting_point.elapsed())`; both helpers only
read the two `Instant`s.  Returns the errors passed to `on_error` in
order, and the heartbeat state after the call. -/
def evaluate (range : InternalRange) (offset elapsed : Nat)
    (snapshot : HeartbeatStateSnapshot) :
    List MonitorEvaluationError × HeartbeatStateSnapshot :=
  let now := offset + elapsed
  let start_timestamp := cycle_start offset snapshot
  let heartbeat_timestamp := beat_time offset snapshot
  let range2 := range.offset start_timestamp
  let counter := snapshot.counter
  if 1 < counter then
    ([HeartbeatEvaluationError.MultipleHeartbeats.into], snapshot)
  else if counter = 0 then
    if range2.max < now then ([HeartbeatEvaluationError.TooLate.into], snapshot)
    else ([], snapshot)
  else if heartbeat_timestamp < range2.min then
    ([HeartbeatEvaluationError.TooEarly.into], snapshot)
  else if range2.max < heartbeat_timestamp then
    ([HeartbeatEvaluationError.TooLate.into], snapshot)
  else
    ([], HeartbeatStateSnapshot.new heartbeat_timestamp)

end HeartbeatMonitorInner

/-- `HeartbeatMonitorBuilder::build` range check: fails with
`InvalidArgument` unless two shortest allowed ranges are longer than the
internal processing cycle.  The constructed monitor itself is elided. -/
def HeartbeatMonitorBuilder.build (range_min_ms internal_processing_cycle_ms : Nat) :
    Except HealthMonitorError Unit :=
  if range_min_ms * 2 ≤ internal_processing_cycle_ms then
    Except.error HealthMonitorError.InvalidArgument
  else Except.ok ()

/-- C2: heartbeat `evaluate` computes `now` in the HMON time base
(`offset + elapsed`), loads the packed snapshot once, and applies the
decision table: `counter > 1` emits MultipleHeartbeats without
advancing the cycle; `counter = 0` is silent while `now` is at most the
window maximum and emits TooLate past it, never advancing the cycle;
`counter = 1` emits TooEarly below the window, TooLate above it, and
inside the window emits nothing and replaces the snapshot with a fresh
cycle starting at the observed beat with post-init set.  Before the
first concluded cycle the window is measured from the offset between
the monitor starting point and the HMON starting point
(`cycle_start`). -/
theorem heartbeat_evaluate_decision_table (range : InternalRange) (offset elapsed : Nat)
    (s : HeartbeatStateSnapshot) (hrange : range.min ≤ range.max) :
    (1 < s.counter →
      HeartbeatMonitorInner.evaluate range offset elapsed s =
        ([MonitorEvaluationError.MultipleHeartbeats], s)) ∧
    (s.counter = 0 →
      offset + elapsed ≤ HeartbeatMonitorInner.cycle_start offset s + range.max →
      HeartbeatMonitorInner.evaluate range offset elapsed s = ([], s)) ∧
    (s.counter = 0 →
      HeartbeatMonitorInner.cycle_start offset s + range.max < offset + elapsed →
      HeartbeatMonitorInner.evaluate range offset elapsed s =
        ([MonitorEvaluationError.TooLate], s)) ∧
    (s.counter = 1 →
      HeartbeatMonitorInner.beat_time offset s <
        HeartbeatMonitorInner.cycle_start offset s + range.min →
      HeartbeatMonitorInner.evaluate range offset elapsed s =
        ([MonitorEvaluationError.TooEarly], s)) ∧
    (s.counter = 1 →
      HeartbeatMonitorInner.cycle_start offset s + range.max <
        HeartbeatMonitorInner.beat_time offset s →
      HeartbeatMonitorInner.evaluate range offset elapsed s =
        ([MonitorEvaluationError.TooLate], s)) ∧
    (s.counter = 1 →
      HeartbeatMonitorInner.cycle_start offset s + range.min ≤
        HeartbeatMonitorInner.beat_time offset s →
      HeartbeatMonitorInner.beat_time offset s ≤
        HeartbeatMonitorInner.cycle_start offset s + range.max →
      HeartbeatMonitorInner.evaluate range offset elapsed s =
        ([], HeartbeatStateSnapshot.new (HeartbeatMonitorInner.beat_time offset s)) ∧
      (HeartbeatMonitorInner.beat_time offset s < 2 ^ 32 →
        (HeartbeatStateSnapshot.new
            (HeartbeatMonitorInner.beat_time offset s)).start_timestamp =
          HeartbeatMonitorInner.beat_time offset s ∧
        (HeartbeatStateSnapshot.new
            (HeartbeatMonitorInner.beat_time offset s)).post_init = true ∧
        (HeartbeatStateSnapshot.new
            (HeartbeatMonitorInner.beat_time offset s)).counter = 0)) := by
  refine ⟨?_, ?_, ?_, ?_, ?_, ?_⟩
  · intro hc
    simp [HeartbeatMonitorInner.evaluate, hc, HeartbeatEvaluationError.into]
  · intro hc hwin
    have hnlt : ¬ (1 < s.counter) := by omega
    have hwin2 : ¬ ((range.offset (HeartbeatMonitorInner.cycle_start offset s)).max <
        offset + elapsed) := by
      simp only [InternalRange.offset]
      omega
    simp [HeartbeatMonitorInner.evaluate, hnlt, hc, hwin2]
  · intro hc hwin
    have hnlt : ¬ (1 < s.counter) := by omega
    have hwin2 : (range.offset (HeartbeatMonitorInner.cycle_start offset s)).max <
        offset + elapsed := by
      simp only [InternalRange.offset]
      omega
    simp [HeartbeatMonitorInner.evaluate, hnlt, hc, hwin2,
      HeartbeatEvaluationError.into]
  · intro hc hbeat
    have hnlt : ¬ (1 < s.counter) := by omega
    have hne : ¬ (s.counter = 0) := by omega
    have hbeat2 : HeartbeatMonitorInner.beat_time offset s <
        (range.offset (HeartbeatMonitorInner.cycle_start offset s)).min := by
      simp only [InternalRange.offset]
      omega
    simp [HeartbeatMonitorInner.evaluate, hnlt, hne, hbeat2,
      HeartbeatEvaluationError.into]
  · intro hc hbeat
    have hnlt : ¬ (1 < s.counter) := by omega
    have hne : ¬ (s.counter = 0) := by omega
    have hbeat2 : ¬ (HeartbeatMonitorInner.beat_time offset s <
        (range.offset (HeartbeatMonitorInner.cycle_start offset s)).min) := by
      simp only [InternalRange.offset]
      omega
    have hbeat3 : (range.offset (HeartbeatMonitorInner.cycle_start offset s)).max <
        HeartbeatMonitorInner.beat_time offset s := by
      simp only [InternalRange.offset]
      omega
    simp [HeartbeatMonitorInner.evaluate, hnlt, hne, hbeat2, hbeat3,
      HeartbeatEvaluationError.into]
  · intro hc hlo hhi
    have hnlt : ¬ (1 < s.counter) := by omega
    have hne : ¬ (s.counter = 0) := by omega
    have hbeat2 : ¬ (HeartbeatMonitorInner.beat_time offset s <
        (range.offset (HeartbeatMonitorInner.cycle_start offset s)).min) := by
      simp only [InternalRange.offset]
      omega
    have hbeat3 : ¬ ((range.offset (HeartbeatMonitorInner.cycle_start offset s)).max <
        HeartbeatMonitorInner.beat_time offset s) := by
      simp only [InternalRange.offset]
      omega
    refine ⟨?_, ?_⟩
    · simp [HeartbeatMonitorInner.evaluate, hnlt, hne, hbeat2, hbeat3]
    · intro hlt
      obtain ⟨h1, h2, h3, h4⟩ := heartbeat_new_fields _ hlt
      exact ⟨h1, h4, h3⟩

/-- Witness for C2: a heartbeat monitor with range [80,120] ms, no beat
recorded, evaluated 200 ms past an HMON start that coincides with the
monitor start, reports TooLate and leaves the state unchanged. -/
theorem heartbeat_evaluate_decision_table_witness :
    HeartbeatMonitorInner.evaluate ⟨80, 120⟩ 0 200 ⟨0⟩ =
      ([MonitorEvaluationError.TooLate], ⟨0⟩) := by
  have h := heartbeat_evaluate_decision_table ⟨80, 120⟩ 0 200 ⟨0⟩ (by decide)
  exact h.2.2.1 (by decide) (by decide)

/-! ### Deadline state (deadline/deadline_state.rs)

Packed u64 layout: bits 32-63 timestamp (ms), bit 3 finished-too-early
(underrun), bit 1 running, bit 0 stopped. -/

def DEADLINE_STATE_MASK : Nat := 0b1111
def DEADLINE_STATE_RUNNING : Nat := 0b0010
def DEADLINE_STATE_STOPPED : Nat := 0b0001
def DEADLINE_STATE_FINISHED_TOO_EARLY : Nat := 0b1000
/-- `!DEADLINE_STATE_MASK` on u64. -/
def NOT_DEADLINE_STATE_MASK : Nat := 0xFFFFFFFFFFFFFFF0

/-- Snapshot of a deadline state (`DeadlineStateSnapshot(u64)`). -/
structure DeadlineStateSnapshot where
  val : Nat
deriving DecidableEq, Repr

namespace DeadlineStateSnapshot

def is_running (s : DeadlineStateSnapshot) : Bool :=
  s.val &&& DEADLINE_STATE_RUNNING != 0

def is_stopped (s : DeadlineStateSnapshot) : Bool :=
  s.val &&& DEADLINE_STATE_STOPPED != 0

def is_underrun (s : DeadlineStateSnapshot) : Bool :=
  s.val &&& DEADLINE_STATE_FINISHED_TOO_EARLY != 0

/-- Timestamp in milliseconds, an offset from the monitor start timer. -/
def timestamp_ms (s : DeadlineStateSnapshot) : Nat :=
  (s.val &&& NOT_DEADLINE_STATE_MASK) >>> 32

def set_timestamp_ms (s : DeadlineStateSnapshot) (timestamp : Nat) : DeadlineStateSnapshot :=
  ⟨(timestamp <<< 32) ||| (s.val &&& DEADLINE_STATE_MASK)⟩

def set_running (s : DeadlineStateSnapshot) : DeadlineStateSnapshot :=
  ⟨s.val ||| DEADLINE_STATE_RUNNING⟩

def set_underrun (s : DeadlineStateSnapshot) : DeadlineStateSnapshot :=
  ⟨s.val ||| DEADLINE_STATE_FINISHED_TOO_EARLY⟩

/-- `Default for DeadlineStateSnapshot`: the clean stopped state. -/
def stoppedDefault : DeadlineStateSnapshot := ⟨DEADLINE_STATE_STOPPED⟩

end DeadlineStateSnapshot

/-- `set_underrun` sets the latched underrun bit and preserves the
running bit, the stopped bit and the timestamp. -/
theorem set_underrun_fields (s : DeadlineStateSnapshot) :
    s.set_underrun.is_underrun = true ∧
    s.set_underrun.is_running = s.is_running ∧
    s.set_underrun.is_stopped = s.is_stopped ∧
    s.set_underrun.timestamp_ms = s.timestamp_ms := by
  refine ⟨?_, ?_, ?_, ?_⟩
  · show ((s.val ||| DEADLINE_STATE_FINISHED_TOO_EARLY) &&&
      DEADLINE_STATE_FINISHED_TOO_EARLY != 0) = true
    rw [Nat.and_distrib_right]
    have h8 : DEADLINE_STATE_FINISHED_TOO_EARLY &&& DEADLINE_STATE_FINISHED_TOO_EARLY = 8 := by
      decide
    rw [h8]
    simp [or_eight_ne_zero]
  · show ((s.val ||| DEADLINE_STATE_FINISHED_TOO_EARLY) &&& DEADLINE_STATE_RUNNING != 0) =
      (s.val &&& DEADLINE_STATE_RUNNING != 0)
    rw [Nat.and_distrib_right]
    have h0 : DEADLINE_STATE_FINISHED_TOO_EARLY &&& DEADLINE_STATE_RUNNING = 0 := by decide
    rw [h0, Nat.or_zero]
  · show ((s.val ||| DEADLINE_STATE_FINISHED_TOO_EARLY) &&& DEADLINE_STATE_STOPPED != 0) =
      (s.val &&& DEADLINE_STATE_STOPPED != 0)
    rw [Nat.and_distrib_right]
    have h0 : DEADLINE_STATE_FINISHED_TOO_EARLY &&& DEADLINE_STATE_STOPPED = 0 := by decide
    rw [h0, Nat.or_zero]
  · show ((s.val ||| DEADLINE_STATE_FINISHED_TOO_EARLY) &&& NOT_DEADLINE_STATE_MASK) >>> 32 =
      (s.val &&& NOT_DEADLINE_STATE_MASK) >>> 32
    rw [Nat.and_distrib_right]
    have h0 : DEADLINE_STATE_FINISHED_TOO_EARLY &&& NOT_DEADLINE_STATE_MASK = 0 := by decide
    rw [h0, Nat.or_zero]

/-- The snapshot written by a successful `start`: running bit set,
stopped bit kept from the default, underrun clear, timestamp stored. -/
theorem started_snapshot_fields (t : Nat) (ht : t < 2 ^ 32) :
    ((DeadlineStateSnapshot.stoppedDefault.set_timestamp_ms t).set_running).is_running = true ∧
    ((DeadlineStateSnapshot.stoppedDefault.set_timestamp_ms t).set_running).is_underrun = false ∧
    ((DeadlineStateSnapshot.stoppedDefault.set_timestamp_ms t).set_running).timestamp_ms = t := by
  have hval : ((DeadlineStateSnapshot.stoppedDefault.set_timestamp_ms t).set_running).val =
      (t <<< 32) ||| 3 := by
    show ((t <<< 32) ||| (DEADLINE_STATE_STOPPED &&& DEADLINE_STATE_MASK)) |||
      DEADLINE_STATE_RUNNING = (t <<< 32) ||| 3
    have h1 : DEADLINE_STATE_STOPPED &&& DEADLINE_STATE_MASK = 1 := by decide
    have h2 : (1 : Nat) ||| DEADLINE_STATE_RUNNING = 3 := by decide
    rw [h1, Nat.or_assoc, h2]
  refine ⟨?_, ?_, ?_⟩
  · show (((DeadlineStateSnapshot.stoppedDefault.set_timestamp_ms t).set_running).val &&&
      DEADLINE_STATE_RUNNING != 0) = true
    rw [hval, Nat.and_distrib_right]
    have h3 : (3 : Nat) &&& DEADLINE_STATE_RUNNING = 2 := by decide
    have hs : (t <<< 32) &&& DEADLINE_STATE_RUNNING = 0 :=
      shiftLeft32_and_small t DEADLINE_STATE_RUNNING (by decide)
    rw [h3, hs]
    decide
  · show (((DeadlineStateSnapshot.stoppedDefault.set_timestamp_ms t).set_running).val &&&
      DEADLINE_STATE_FINISHED_TOO_EARLY != 0) = false
    rw [hval, Nat.and_distrib_right]
    have h3 : (3 : Nat) &&& DEADLINE_STATE_FINISHED_TOO_EARLY = 0 := by decide
    have hs : (t <<< 32) &&& DEADLINE_STATE_FINISHED_TOO_EARLY = 0 :=
      shiftLeft32_and_small t DEADLINE_STATE_FINISHED_TOO_EARLY (by decide)
    rw [h3, hs]
    decide
  · show ((((DeadlineStateSnapshot.stoppedDefault.set_timestamp_ms t).set_running).val &&&
      NOT_DEADLINE_STATE_MASK)) >>> 32 = t
    rw [hval, Nat.and_distrib_right]
    have h3 : (3 : Nat) &&& NOT_DEADLINE_STATE_MASK = 0 := by decide
    have hmask : NOT_DEADLINE_STATE_MASK = 2 ^ 64 - 2 ^ 4 := by decide
    rw [h3, Nat.or_zero, hmask, shiftLeft32_and_highMask t 4 ht (by norm_num),
      shiftLeft32_shiftRight32]

/-! ### Deadline monitor (deadline/deadline_monitor.rs) -/

/-- Errors from `Deadline` instances. -/
inductive DeadlineError
  | DeadlineAlreadyFailed
deriving DecidableEq, Repr

/-- `Deadline::start_internal`: one CAS on the deadline state slot.
`now` is the monitor-relative clock read and `maxv` the range maximum
in ms.  Returns the new slot value and the error, if any. -/
def Deadline.start_internal (now maxv : Nat) (current : DeadlineStateSnapshot) :
    DeadlineStateSnapshot × Option DeadlineError :=
  let max_time := now + maxv
  if current.is_running || current.is_underrun then
    (current, some DeadlineError.DeadlineAlreadyFailed)
  else
    ((DeadlineStateSnapshot.stoppedDefault.set_timestamp_ms max_time).set_running, none)

/-- `Deadline::stop_internal` (also invoked by `DeadlineHandle::drop`,
hence by `DeadlineHandle::stop`): one CAS on the deadline state slot.
Returns the new slot value and the error recorded in `possible_err`
(used only for logging in the source; the Rust `stop` returns unit). -/
def Deadline.stop_internal (now minv maxv : Nat) (current : DeadlineStateSnapshot) :
    DeadlineStateSnapshot × Option MonitorEvaluationError :=
  let expected := current.timestamp_ms
  if expected < now then
    (current, some MonitorEvaluationError.TooLate)
  else
    let start_time := expected - maxv
    let earliest_time := start_time + minv
    if now < earliest_time then
      (current.set_underrun, some MonitorEvaluationError.TooEarly)
    else
      (DeadlineStateSnapshot.stoppedDefault, none)

/-- `DeadlineMonitorInner::evaluate`, for a single state slot: underrun
reports TooEarly; a running deadline whose timestamp has passed reports
TooLate; nothing is cleared. -/
def DeadlineMonitorInner.evaluate_slot (now : Nat) (s : DeadlineStateSnapshot) :
    Option MonitorEvaluationError :=
  if s.is_underrun then some MonitorEvaluationError.TooEarly
  else if s.is_running then
    (if s.timestamp_ms < now then some MonitorEvaluationError.TooLate else none)
  else none

/-- `DeadlineMonitorInner::evaluate`: walks all state slots in order,
reporting through `on_failed`. -/
def DeadlineMonitorInner.evaluate (now : Nat) (slots : List (Tag × DeadlineStateSnapshot)) :
    List (Tag × MonitorEvaluationError) :=
  slots.filterMap fun p =>
    (DeadlineMonitorInner.evaluate_slot now p.2).map fun e => (p.1, e)

/-- C4: `Deadline::start` reads the state slot once; on a running or
underrun snapshot it fails with DeadlineAlreadyFailed (the latched
fault) and leaves the slot unchanged; otherwise it writes a snapshot
with the running bit set and `timestamp_ms = now + range.max` and
returns the handle (whose drop invokes stop).  -/
theorem deadline_start_spec (now maxv : Nat) (s : DeadlineStateSnapshot) :
    (s.is_running = true ∨ s.is_underrun = true →
      Deadline.start_internal now maxv s = (s, some DeadlineError.DeadlineAlreadyFailed)) ∧
    (s.is_running = false → s.is_underrun = false →
      (Deadline.start_internal now maxv s).2 = none ∧
      (now + maxv < 2 ^ 32 →
        (Deadline.start_internal now maxv s).1.is_running = true ∧
        (Deadline.start_internal now maxv s).1.is_underrun = false ∧
        (Deadline.start_internal now maxv s).1.timestamp_ms = now + maxv)) := by
  constructor
  · intro h
    have hcond : (s.is_running || s.is_underrun) = true := by
      rcases h with h | h <;> simp [h]
    simp [Deadline.start_internal, hcond]
  · intro h1 h2
    have hcond : (s.is_running || s.is_underrun) = false := by simp [h1, h2]
    constructor
    · simp [Deadline.start_internal, hcond]
    · intro hlt
      obtain ⟨f1, f2, f3⟩ := started_snapshot_fields (now + maxv) hlt
      simp [Deadline.start_internal, hcond]
      exact ⟨f1, f2, f3⟩

/-- Witness for C4: starting a clean stopped deadline at `now = 100`
with `max = 200` succeeds and records deadline timestamp 300. -/
theorem deadline_start_spec_witness :
    (Deadline.start_internal 100 200 DeadlineStateSnapshot.stoppedDefault).2 = none ∧
    (Deadline.start_internal 100 200 DeadlineStateSnapshot.stoppedDefault).1.timestamp_ms =
      300 := by
  have h := (deadline_start_spec 100 200 DeadlineStateSnapshot.stoppedDefault).2
    (by decide) (by decide)
  exact ⟨h.1, (h.2 (by decide)).2.2⟩

/-- C3: for a started (running) deadline with a valid range and an
unexpired view of the slot, `stop` (directly or via dropping the
DeadlineHandle) reads the snapshot once and: past the deadline it
leaves the slot unchanged, keeping the running bit for the worker to
observe; before `timestamp_ms - range.max + range.min` it sets the
latched underrun bit, keeping the rest of the snapshot; otherwise it
resets the slot to the clean stopped state. -/
theorem deadline_stop_spec (now minv maxv : Nat) (s : DeadlineStateSnapshot)
    (hrun : s.is_running = true) (hminmax : minv ≤ maxv)
    (hts : maxv ≤ s.timestamp_ms) :
    (s.timestamp_ms < now →
      Deadline.stop_internal now minv maxv s = (s, some MonitorEvaluationError.TooLate) ∧
      (Deadline.stop_internal now minv maxv s).1.is_running = true) ∧
    (now ≤ s.timestamp_ms → now < s.timestamp_ms - maxv + minv →
      Deadline.stop_internal now minv maxv s =
        (s.set_underrun, some MonitorEvaluationError.TooEarly) ∧
      s.set_underrun.is_underrun = true ∧
      s.set_underrun.is_running = true ∧
      s.set_underrun.timestamp_ms = s.timestamp_ms) ∧
    (now ≤ s.timestamp_ms → s.timestamp_ms - maxv + minv ≤ now →
      Deadline.stop_internal now minv maxv s = (DeadlineStateSnapshot.stoppedDefault, none) ∧
      DeadlineStateSnapshot.stoppedDefault.is_stopped = true ∧
      DeadlineStateSnapshot.stoppedDefault.is_running = false ∧
      DeadlineStateSnapshot.stoppedDefault.is_underrun = false ∧
      DeadlineStateSnapshot.stoppedDefault.timestamp_ms = 0) := by
  refine ⟨?_, ?_, ?_⟩
  · intro hlt
    constructor
    · simp [Deadline.stop_internal, hlt]
    · simp [Deadline.stop_internal, hlt, hrun]
  · intro hle hearly
    have hnlt : ¬ (s.timestamp_ms < now) := by omega
    have hcond : now < s.timestamp_ms - maxv + minv := hearly
    obtain ⟨u1, u2, u3, u4⟩ := set_underrun_fields s
    refine ⟨by simp [Deadline.stop_internal, hnlt, hcond], u1, ?_, u4⟩
    rw [u2, hrun]
  · intro hle hlate
    have hnlt : ¬ (s.timestamp_ms < now) := by omega
    have hcond : ¬ (now < s.timestamp_ms - maxv + minv) := by omega
    exact ⟨by simp [Deadline.stop_internal, hnlt, hcond], by decide, by decide,
      by decide, by decide⟩

/-- Witness for C3: a deadline with range [100,200] ms started at 0
(slot timestamp 200) and stopped at `now = 50` finishes too early: the
underrun bit latches while running bit and timestamp survive. -/
theorem deadline_stop_spec_witness :
    (Deadline.stop_internal 50 100 200
        (Deadline.start_internal 0 200 DeadlineStateSnapshot.stoppedDefault).1).2 =
      some MonitorEvaluationError.TooEarly ∧
    (Deadline.stop_internal 50 100 200
        (Deadline.start_internal 0 200 DeadlineStateSnapshot.stoppedDefault).1).1.is_underrun =
      true := by
  have h := (deadline_stop_spec 50 100 200
      (Deadline.start_internal 0 200 DeadlineStateSnapshot.stoppedDefault).1
      (by decide) (by decide) (by decide)).2.1 (by decide) (by decide)
  refine ⟨?_, ?_⟩
  · rw [h.1]
  · rw [h.1]
    exact h.2.1

/-- C-ABI `deadline_stop` (deadline/ffi.rs): calls `stop_internal` and
returns `Success` unconditionally (a null handle, not modelled here, is
the only way to get another code).  The Rust-level
`DeadlineHandle::stop` consumes the handle and returns unit. -/
def deadline_stop (now minv maxv : Nat) (current : DeadlineStateSnapshot) :
    FFICode × DeadlineStateSnapshot :=
  (FFICode.Success, (Deadline.stop_internal now minv maxv current).1)

/-- C9 counterexample: a deadline started at 0 with `max = 200` and
stopped at 300 (after the miss) does NOT return a failure to the
caller: the C-ABI `deadline_stop` returns `Success` (and the Rust
`stop` returns unit), contradicting the claim that such a stop returns
`Failed`. -/
theorem deadline_stop_after_miss_counterexample :
    (Deadline.start_internal 0 200 DeadlineStateSnapshot.stoppedDefault).1.timestamp_ms =
      200 ∧
    (200 : Nat) < 300 ∧
    (deadline_stop 300 100 200
        (Deadline.start_internal 0 200 DeadlineStateSnapshot.stoppedDefault).1).1 =
      FFICode.Success ∧
    FFICode.Success ≠ FFICode.Failed := by
  decide

/-- C9 (amended): if a deadline is started and `range.max` elapses
without stop, `evaluate` emits TooLate for that tag, regardless of
whether stop has been called yet — a stop after the miss leaves the
slot unchanged (still running and expired) — but such a stop does not
return a failure: the C-ABI `deadline_stop` returns `Success` and the
Rust `stop` returns unit; the miss is reported only through
`evaluate`. -/
theorem deadline_miss_spec (tag t0 maxv minv now stopNow : Nat)
    (s0 : DeadlineStateSnapshot)
    (h0run : s0.is_running = false) (h0und : s0.is_underrun = false)
    (hlt : t0 + maxv < 2 ^ 32)
    (hmiss : t0 + maxv < now) (hstop : t0 + maxv < stopNow) :
    DeadlineMonitorInner.evaluate now [(tag, (Deadline.start_internal t0 maxv s0).1)] =
      [(tag, MonitorEvaluationError.TooLate)] ∧
    Deadline.stop_internal stopNow minv maxv (Deadline.start_internal t0 maxv s0).1 =
      ((Deadline.start_internal t0 maxv s0).1, some MonitorEvaluationError.TooLate) ∧
    DeadlineMonitorInner.evaluate now
        [(tag, (Deadline.stop_internal stopNow minv maxv
          (Deadline.start_internal t0 maxv s0).1).1)] =
      [(tag, MonitorEvaluationError.TooLate)] ∧
    (deadline_stop stopNow minv maxv (Deadline.start_internal t0 maxv s0).1).1 =
      FFICode.Success := by
  have hcond : (s0.is_running || s0.is_underrun) = false := by simp [h0run, h0und]
  have hs1 : (Deadline.start_internal t0 maxv s0).1 =
      (DeadlineStateSnapshot.stoppedDefault.set_timestamp_ms (t0 + maxv)).set_running := by
    simp [Deadline.start_internal, hcond]
  obtain ⟨f1, f2, f3⟩ := started_snapshot_fields (t0 + maxv) hlt
  have heval : DeadlineMonitorInner.evaluate now
      [(tag, (Deadline.start_internal t0 maxv s0).1)] =
      [(tag, MonitorEvaluationError.TooLate)] := by
    simp [DeadlineMonitorInner.evaluate, DeadlineMonitorInner.evaluate_slot,
      hs1, f1, f2, f3, hmiss]
  have hstopped : Deadline.stop_internal stopNow minv maxv
      (Deadline.start_internal t0 maxv s0).1 =
      ((Deadline.start_internal t0 maxv s0).1, some MonitorEvaluationError.TooLate) := by
    rw [hs1]
    simp [Deadline.stop_internal, f3, hstop]
  refine ⟨heval, hstopped, ?_, rfl⟩
  rw [hstopped]
  exact heval

/-- Witness for C9 (amended): concrete run at `t0 = 0`, `max = 200`,
evaluation at 300, stop at 250. -/
theorem deadline_miss_spec_witness :
    DeadlineMonitorInner.evaluate 300
        [(7, (Deadline.start_internal 0 200 DeadlineStateSnapshot.stoppedDefault).1)] =
      [(7, MonitorEvaluationError.TooLate)] ∧
    (deadline_stop 250 100 200
        (Deadline.start_internal 0 200 DeadlineStateSnapshot.stoppedDefault).1).1 =
      FFICode.Success := by
  have h := deadline_miss_spec 7 0 200 100 300 250 DeadlineStateSnapshot.stoppedDefault
    (by decide) (by decide) (by decide) (by decide) (by decide)
  exact ⟨h.1, h.2.2.2⟩

/-! ### Association lists

HashMaps with unique keys are modelled as association lists with
first-match lookup and first-match in-place update. -/

/-- Lookup by key (HashMap `get`). -/
def assocFind {α : Type} : List (Tag × α) → Tag → Option α
  | [], _ => none
  | p :: rest, k => if p.1 = k then some p.2 else assocFind rest k

/-- Replace the value stored at a key, first match only (in-place
mutation through HashMap `get_mut`). -/
def assocUpdate {α : Type} : List (Tag × α) → Tag → α → List (Tag × α)
  | [], _, _ => []
  | p :: rest, k, v => if p.1 = k then (k, v) :: rest else p :: assocUpdate rest k v

theorem assocFind_assocUpdate {α : Type} (l : List (Tag × α)) (k : Tag) (v w : α)
    (h : assocFind l k = some w) : assocFind (assocUpdate l k v) k = some v := by
  induction l with
  | nil => simp [assocFind] at h
  | cons p rest ih =>
    by_cases hk : p.1 = k
    · simp [assocFind, assocUpdate, hk]
    · simp only [assocFind, assocUpdate, hk, if_false, if_neg hk] at h ⊢
      exact ih h

theorem assocUpdate_self {α : Type} (l : List (Tag × α)) (k : Tag) (v : α)
    (h : assocFind l k = some v) : assocUpdate l k v = l := by
  induction l with
  | nil => simp [assocFind] at h
  | cons p rest ih =>
    by_cases hk : p.1 = k
    · simp only [assocFind, if_pos hk] at h
      simp only [assocUpdate, if_pos hk]
      injection h with h2
      subst h2
      subst hk
      simp
    · simp only [assocFind, if_neg hk] at h
      simp only [assocUpdate, if_neg hk]
      rw [ih h]

/-! ### Deadline templates (deadline/common.rs) and
`DeadlineMonitor::get_deadline` -/

/-- Inclusive time range in milliseconds (`TimeRange`), with the
`min ≤ max` construction invariant carried as a hypothesis where
needed. -/
structure TimeRange where
  min : Nat
  max : Nat
deriving DecidableEq, Repr

/-- Per-deadline template: range, single-slot claimed flag
(`is_in_use`), dense state index. -/
structure DeadlineTemplate where
  range : TimeRange
  is_in_use : Bool
  assigned_state_index : Nat
deriving DecidableEq, Repr

/-- `DeadlineTemplate::acquire_deadline`: compare-exchange of the
`is_in_use` flag false → true; returns the range on success. -/
def DeadlineTemplate.acquire_deadline (t : DeadlineTemplate) :
    Option TimeRange × DeadlineTemplate :=
  if t.is_in_use = false then (some t.range, { t with is_in_use := true })
  else (none, t)

/-- `DeadlineTemplate::release_deadline`: stores false. -/
def DeadlineTemplate.release_deadline (t : DeadlineTemplate) : DeadlineTemplate :=
  { t with is_in_use := false }

/-- Errors from `DeadlineMonitor` (deadline_monitor.rs). -/
inductive DeadlineMonitorError
  | DeadlineInUse
  | DeadlineNotFound
deriving DecidableEq, Repr

/-- A `Deadline` token: the template range, the deadline tag and the
assigned state index (the shared monitor reference is implicit). -/
structure Deadline where
  range : TimeRange
  tag : Tag
  state_index : Nat
deriving DecidableEq, Repr

/-- `DeadlineMonitor::get_deadline` over the template map. -/
def DeadlineMonitor.get_deadline (templates : List (Tag × DeadlineTemplate)) (tag : Tag) :
    Except DeadlineMonitorError Deadline × List (Tag × DeadlineTemplate) :=
  match assocFind templates tag with
  | some template =>
    match template.acquire_deadline with
    | (some range, t2) =>
      (Except.ok ⟨range, tag, template.assigned_state_index⟩, assocUpdate templates tag t2)
    | (none, _) => (Except.error DeadlineMonitorError.DeadlineInUse, templates)
  | none => (Except.error DeadlineMonitorError.DeadlineNotFound, templates)

/-- `DeadlineMonitorInner::release_deadline`, invoked by
`Drop for Deadline`: clears the claimed flag (an unknown tag is
unreachable in the source). -/
def DeadlineMonitorInner.release_deadline (templates : List (Tag × DeadlineTemplate))
    (tag : Tag) : List (Tag × DeadlineTemplate) :=
  match assocFind templates tag with
  | some t => assocUpdate templates tag t.release_deadline
  | none => templates

/-- C5: per registered deadline tag at most one live token exists:
`get_deadline` compare-and-swaps the template claimed flag
false → true, so with the flag clear it hands out the token (claiming
the template), a second call while the token is alive returns
DeadlineInUse without changes, and after the drop-triggered release a
later `get_deadline` succeeds again; an unregistered tag yields
DeadlineNotFound. -/
theorem get_deadline_single_ownership (templates : List (Tag × DeadlineTemplate))
    (tag : Tag) :
    (assocFind templates tag = none →
      DeadlineMonitor.get_deadline templates tag =
        (Except.error DeadlineMonitorError.DeadlineNotFound, templates)) ∧
    (∀ tmpl : DeadlineTemplate, assocFind templates tag = some tmpl →
      tmpl.is_in_use = false →
      (DeadlineMonitor.get_deadline templates tag).1 =
        Except.ok ⟨tmpl.range, tag, tmpl.assigned_state_index⟩ ∧
      assocFind (DeadlineMonitor.get_deadline templates tag).2 tag =
        some { tmpl with is_in_use := true } ∧
      DeadlineMonitor.get_deadline (DeadlineMonitor.get_deadline templates tag).2 tag =
        (Except.error DeadlineMonitorError.DeadlineInUse,
          (DeadlineMonitor.get_deadline templates tag).2) ∧
      (DeadlineMonitor.get_deadline
          (DeadlineMonitorInner.release_deadline
            (DeadlineMonitor.get_deadline templates tag).2 tag) tag).1 =
        Except.ok ⟨tmpl.range, tag, tmpl.assigned_state_index⟩) ∧
    (∀ tmpl : DeadlineTemplate, assocFind templates tag = some tmpl →
      tmpl.is_in_use = true →
      DeadlineMonitor.get_deadline templates tag =
        (Except.error DeadlineMonitorError.DeadlineInUse, templates)) := by
  refine ⟨?_, ?_, ?_⟩
  · intro h
    simp [DeadlineMonitor.get_deadline, h]
  · intro tmpl hfind hfree
    have hacq : tmpl.acquire_deadline =
        (some tmpl.range, { tmpl with is_in_use := true }) := by
      simp [DeadlineTemplate.acquire_deadline, hfree]
    have hget : DeadlineMonitor.get_deadline templates tag =
        (Except.ok ⟨tmpl.range, tag, tmpl.assigned_state_index⟩,
          assocUpdate templates tag { tmpl with is_in_use := true }) := by
      simp [DeadlineMonitor.get_deadline, hfind, hacq]
    have hfind2 : assocFind (assocUpdate templates tag { tmpl with is_in_use := true }) tag =
        some { tmpl with is_in_use := true } :=
      assocFind_assocUpdate templates tag _ tmpl hfind
    have hget2 : DeadlineMonitor.get_deadline
        (assocUpdate templates tag { tmpl with is_in_use := true }) tag =
        (Except.error DeadlineMonitorError.DeadlineInUse,
          assocUpdate templates tag { tmpl with is_in_use := true }) := by
      simp [DeadlineMonitor.get_deadline, hfind2, DeadlineTemplate.acquire_deadline]
    have hrel : DeadlineMonitorInner.release_deadline
        (assocUpdate templates tag { tmpl with is_in_use := true }) tag =
        assocUpdate (assocUpdate templates tag { tmpl with is_in_use := true }) tag
          { tmpl with is_in_use := false } := by
      simp [DeadlineMonitorInner.release_deadline, hfind2,
        DeadlineTemplate.release_deadline]
    have hfind3 : assocFind
        (assocUpdate (assocUpdate templates tag { tmpl with is_in_use := true }) tag
          { tmpl with is_in_use := false }) tag = some { tmpl with is_in_use := false } :=
      assocFind_assocUpdate _ tag _ _ hfind2
    refine ⟨by rw [hget], by rw [hget]; exact hfind2, by rw [hget]; exact hget2, ?_⟩
    rw [hget, hrel]
    simp [DeadlineMonitor.get_deadline, hfind3, DeadlineTemplate.acquire_deadline]
  · intro tmpl hfind hused
    have hacq : tmpl.acquire_deadline = (none, tmpl) := by
      simp [DeadlineTemplate.acquire_deadline, hused]
    simp [DeadlineMonitor.get_deadline, hfind, hacq]

/-- Witness for C5: one registered template, claimed and released. -/
theorem get_deadline_single_ownership_witness :
    (DeadlineMonitor.get_deadline [(3, ⟨⟨10, 20⟩, false, 0⟩)] 3).1 =
      Except.ok ⟨⟨10, 20⟩, 3, 0⟩ ∧
    (DeadlineMonitor.get_deadline
        (DeadlineMonitor.get_deadline [(3, ⟨⟨10, 20⟩, false, 0⟩)] 3).2 3).1 =
      Except.error DeadlineMonitorError.DeadlineInUse := by
  have h := (get_deadline_single_ownership [(3, ⟨⟨10, 20⟩, false, 0⟩)] 3).2.1
    ⟨⟨10, 20⟩, false, 0⟩ (by decide) (by decide)
  refine ⟨h.1, ?_⟩
  rw [h.2.2.1]

/-! ### Health monitor containers (lib.rs) -/

/-- Monitor ownership state (`MonitorState<Monitor>`): either the
user-facing monitor is still available, or it was taken and only the
worker evaluation handle remains. -/
inductive MonitorState (M H : Type)
  | available (m : M)
  | taken (h : H)
deriving DecidableEq

/-- Monitor container (`MonitorContainer<Monitor>`): `none` is the
broken absent state reachable only through a partially collected
start. -/
abbrev MonitorContainer (M H : Type) := Option (MonitorState M H)

/-- `HealthMonitor::get_monitor`: take the container contents out; an
available monitor is handed to the caller and replaced by its
evaluation handle (`eval m`); a taken handle is put back unchanged; an
absent container or unknown tag yields nothing. -/
def HealthMonitor.get_monitor {M H : Type} (eval : M → H)
    (monitors : List (Tag × MonitorContainer M H)) (monitor_tag : Tag) :
    Option M × List (Tag × MonitorContainer M H) :=
  match assocFind monitors monitor_tag with
  | none => (none, monitors)
  | some c =>
    match c with
    | some (MonitorState.available m) =>
      (some m, assocUpdate monitors monitor_tag (some (MonitorState.taken (eval m))))
    | some (MonitorState.taken h) =>
      (none, assocUpdate monitors monitor_tag (some (MonitorState.taken h)))
    | none => (none, assocUpdate monitors monitor_tag none)

/-- `HealthMonitor::collect_given_monitors`: walk the map, `take()`-ing
every container (which empties it to the absent state); push each taken
handle, abort with an error at the first still-available or absent
container, leaving the rest of the map untouched. -/
def HealthMonitor.collect_given_monitors {M H : Type} :
    List (Tag × MonitorContainer M H) →
    Option (List H) × List (Tag × MonitorContainer M H)
  | [] => (some [], [])
  | (tag, c) :: rest =>
    match c with
    | some (MonitorState.taken h) =>
      let r := HealthMonitor.collect_given_monitors rest
      (r.1.map (h :: ·), (tag, none) :: r.2)
    | _ => (none, (tag, none) :: rest)

/-- The `HealthMonitor` container state: deadline and heartbeat monitor
maps (worker and cycle configuration elided). -/
structure HealthMonitor (D B H : Type) where
  deadline_monitors : List (Tag × MonitorContainer D H)
  heartbeat_monitors : List (Tag × MonitorContainer B H)
deriving DecidableEq

/-- `HealthMonitor::start`: fail with WrongState when no monitors are
registered; otherwise collect the deadline handles then the heartbeat
handles (each collection emptying the containers it walks); any
still-available or absent container aborts with WrongState; on success
the worker is started with the collected handles. -/
def HealthMonitor.start {D B H : Type} (hm : HealthMonitor D B H) :
    Except HealthMonitorError (List H) × HealthMonitor D B H :=
  if hm.deadline_monitors.length + hm.heartbeat_monitors.length = 0 then
    (Except.error HealthMonitorError.WrongState, hm)
  else
    match HealthMonitor.collect_given_monitors hm.deadline_monitors with
    | (none, dm2) =>
      (Except.error HealthMonitorError.WrongState, { hm with deadline_monitors := dm2 })
    | (some hs1, dm2) =>
      match HealthMonitor.collect_given_monitors hm.heartbeat_monitors with
      | (none, hb2) =>
        (Except.error HealthMonitorError.WrongState,
          { deadline_monitors := dm2, heartbeat_monitors := hb2 })
      | (some hs2, hb2) =>
        (Except.ok (hs1 ++ hs2),
          { deadline_monitors := dm2, heartbeat_monitors := hb2 })

/-- Collecting a map whose containers are all taken succeeds, yielding
the handles in map order. -/
theorem collect_all_taken {M H : Type} (ms : List (Tag × MonitorContainer M H))
    (hall : ∀ p ∈ ms, ∃ h, p.2 = some (MonitorState.taken h)) :
    ∃ hs, HealthMonitor.collect_given_monitors ms =
      (some hs, ms.map fun p => (p.1, none)) := by
  induction ms with
  | nil => exact ⟨[], rfl⟩
  | cons p rest ih =>
    obtain ⟨h, hp⟩ := hall p (List.mem_cons_self p rest)
    obtain ⟨hs, hrest⟩ := ih fun q hq => hall q (List.mem_cons_of_mem p hq)
    refine ⟨h :: hs, ?_⟩
    obtain ⟨tag, c⟩ := p
    simp only at hp
    rw [hp] at *
    simp [HealthMonitor.collect_given_monitors, hrest]

/-- Collecting a map that contains a still-available monitor fails. -/
theorem collect_has_available {M H : Type} (ms : List (Tag × MonitorContainer M H))
    (hex : ∃ p ∈ ms, ∃ m, p.2 = some (MonitorState.available m)) :
    (HealthMonitor.collect_given_monitors ms).1 = none := by
  induction ms with
  | nil => simp at hex
  | cons p rest ih =>
    obtain ⟨q, hq, m, hqm⟩ := hex
    obtain ⟨tag, c⟩ := p
    rcases List.mem_cons.mp hq with hq1 | hq2
    · subst hq1
      simp only at hqm
      rw [hqm]
      simp [HealthMonitor.collect_given_monitors]
    · match c with
      | some (MonitorState.taken h) =>
        have hrest := ih ⟨q, hq2, m, hqm⟩
        simp [HealthMonitor.collect_given_monitors, hrest]
      | some (MonitorState.available m2) =>
        simp [HealthMonitor.collect_given_monitors]
      | none =>
        simp [HealthMonitor.collect_given_monitors]

/-- C6: each registered monitor is handed out at most once:
`get_monitor` on an available container extracts the monitor and
replaces the container with the taken evaluation handle; on a taken
container it returns nothing and leaves the map unchanged; an unknown
tag or an absent container also yields nothing with the map unchanged.
`start` returns WrongState when no monitors are registered or when any
registered monitor is still available, and succeeds when every
registered monitor has been taken. -/
theorem health_monitor_take_once {D B H : Type} (eval : D → H)
    (monitors : List (Tag × MonitorContainer D H)) (tag : Tag) :
    (assocFind monitors tag = none →
      HealthMonitor.get_monitor eval monitors tag = (none, monitors)) ∧
    (∀ m : D, assocFind monitors tag = some (some (MonitorState.available m)) →
      HealthMonitor.get_monitor eval monitors tag =
        (some m, assocUpdate monitors tag (some (MonitorState.taken (eval m))))) ∧
    (∀ h : H, assocFind monitors tag = some (some (MonitorState.taken h)) →
      HealthMonitor.get_monitor eval monitors tag = (none, monitors)) ∧
    (assocFind monitors tag = some none →
      HealthMonitor.get_monitor eval monitors tag = (none, monitors)) ∧
    (∀ hm : HealthMonitor D B H,
      hm.deadline_monitors.length + hm.heartbeat_monitors.length = 0 →
      hm.start.1 = Except.error HealthMonitorError.WrongState) ∧
    (∀ hm : HealthMonitor D B H,
      ((∃ p ∈ hm.deadline_monitors, ∃ m, p.2 = some (MonitorState.available m)) ∨
        (∃ p ∈ hm.heartbeat_monitors, ∃ m, p.2 = some (MonitorState.available m))) →
      hm.start.1 = Except.error HealthMonitorError.WrongState) ∧
    (∀ hm : HealthMonitor D B H,
      hm.deadline_monitors.length + hm.heartbeat_monitors.length ≠ 0 →
      (∀ p ∈ hm.deadline_monitors, ∃ h, p.2 = some (MonitorState.taken h)) →
      (∀ p ∈ hm.heartbeat_monitors, ∃ h, p.2 = some (MonitorState.taken h)) →
      ∃ hs, hm.start.1 = Except.ok hs) := by
  refine ⟨?_, ?_, ?_, ?_, ?_, ?_, ?_⟩
  · intro h
    simp [HealthMonitor.get_monitor, h]
  · intro m h
    simp [HealthMonitor.get_monitor, h]
  · intro h hfind
    have hup := assocUpdate_self monitors tag _ hfind
    simp [HealthMonitor.get_monitor, hfind, hup]
  · intro hfind
    have hup := assocUpdate_self monitors tag _ hfind
    simp [HealthMonitor.get_monitor, hfind, hup]
  · intro hm hzero
    simp [HealthMonitor.start, hzero]
  · intro hm hav
    have hne : hm.deadline_monitors.length + hm.heartbeat_monitors.length ≠ 0 := by
      rcases hav with ⟨p, hp, _⟩ | ⟨p, hp, _⟩
      · have := List.length_pos_of_mem hp
        omega
      · have := List.length_pos_of_mem hp
        omega
    rcases hav with hdm | hhb
    · have hc : (HealthMonitor.collect_given_monitors hm.deadline_monitors).1 = none :=
        collect_has_available _ hdm
      rcases hcol : HealthMonitor.collect_given_monitors hm.deadline_monitors with ⟨r1, r2⟩
      rw [hcol] at hc
      simp only at hc
      subst hc
      simp [HealthMonitor.start, hne, hcol]
    · rcases hcol : HealthMonitor.collect_given_monitors hm.deadline_monitors with ⟨r1, r2⟩
      match r1 with
      | none => simp [HealthMonitor.start, hne, hcol]
      | some hs1 =>
        have hc : (HealthMonitor.collect_given_monitors hm.heartbeat_monitors).1 = none :=
          collect_has_available _ hhb
        rcases hcol2 : HealthMonitor.collect_given_monitors hm.heartbeat_monitors with ⟨q1, q2⟩
        rw [hcol2] at hc
        simp only at hc
        subst hc
        simp [HealthMonitor.start, hne, hcol, hcol2]
  · intro hm hne hd hb
    obtain ⟨hs1, hc1⟩ := collect_all_taken hm.deadline_monitors hd
    obtain ⟨hs2, hc2⟩ := collect_all_taken hm.heartbeat_monitors hb
    refine ⟨hs1 ++ hs2, ?_⟩
    simp [HealthMonitor.start, hne, hc1, hc2]

/-- Witness for C6: taking an available deadline monitor hands it out
and leaves the taken evaluation handle behind. -/
theorem health_monitor_take_once_witness :
    HealthMonitor.get_monitor (fun n => n)
        ([(0, some (MonitorState.available 5))] : List (Tag × MonitorContainer Nat Nat)) 0 =
      (some 5, [(0, some (MonitorState.taken 5))]) := by
  have h := (@health_monitor_take_once Nat Nat Nat (fun n => n)
    [(0, some (MonitorState.available 5))] 0).2.1 5 (by decide)
  simpa [assocUpdate] using h

/-- C10: `start` is not atomic on failure: collection empties every
container it walks before aborting, so when it hits a still-available
monitor the previously iterated taken containers are left absent (their
evaluation handles removed); in particular with one taken deadline
monitor and one untaken heartbeat monitor, start returns WrongState,
leaves the deadline container absent, and a retried start fails
again. -/
theorem start_failure_empties_collected {D B H : Type}
    (pre post : List (Tag × MonitorContainer D H)) (tag : Tag) (m : D)
    (hpre : ∀ p ∈ pre, ∃ h, p.2 = some (MonitorState.taken h)) :
    HealthMonitor.collect_given_monitors
        (pre ++ (tag, some (MonitorState.available m)) :: post) =
      (none, (pre.map fun p => (p.1, none)) ++ (tag, none) :: post) ∧
    HealthMonitor.start
        (⟨[(0, some (MonitorState.taken 7))],
          [(1, some (MonitorState.available 5))]⟩ : HealthMonitor Nat Nat Nat) =
      (Except.error HealthMonitorError.WrongState, ⟨[(0, none)], [(1, none)]⟩) ∧
    (HealthMonitor.start
        (⟨[(0, none)], [(1, none)]⟩ : HealthMonitor Nat Nat Nat)).1 =
      Except.error HealthMonitorError.WrongState := by
  refine ⟨?_, by rfl, by rfl⟩
  revert hpre
  induction pre with
  | nil =>
    intro _
    simp [HealthMonitor.collect_given_monitors]
  | cons p rest ih =>
    intro hpre
    obtain ⟨h, hp⟩ := hpre p (List.mem_cons_self p rest)
    have hrest := ih fun q hq => hpre q (List.mem_cons_of_mem p hq)
    obtain ⟨ptag, c⟩ := p
    simp only at hp
    subst hp
    simp [HealthMonitor.collect_given_monitors, hrest]

/-- Witness for C10: a taken container iterated before the failing
available one is emptied to the absent state. -/
theorem start_failure_empties_collected_witness :
    HealthMonitor.collect_given_monitors
        ([(2, some (MonitorState.taken 9)), (3, some (MonitorState.available 4))] :
          List (Tag × MonitorContainer Nat Nat)) =
      (none, [(2, none), (3, none)]) := by
  have h := (@start_failure_empties_collected Nat Nat Nat
    [(2, some (MonitorState.taken 9))] [] 3 4
    (fun p hp => by
      simp at hp
      subst hp
      exact ⟨9, rfl⟩)).1
  simpa using h

/-! ### Logic monitor (logic/logic_monitor.rs) -/

/-- Internal OK latch value (`OK_STATE`). -/
def OK_STATE : Nat := 0

/-- Logic evaluation errors; their u8 representation is `OK_STATE + 1`
for InvalidState and the successor for InvalidTransition. -/
inductive LogicEvaluationError
  | InvalidState
  | InvalidTransition
deriving DecidableEq, Repr

/-- `From<LogicEvaluationError> for u8`. -/
def LogicEvaluationError.toU8 : LogicEvaluationError → Nat
  | .InvalidState => OK_STATE + 1
  | .InvalidTransition => OK_STATE + 2

/-- `From<u8> for LogicEvaluationError` (the source panics on any other
value; only 1 and 2 are ever stored, see
`logic_latch_values_invariant`). -/
def LogicEvaluationError.fromU8 (value : Nat) : LogicEvaluationError :=
  if value = OK_STATE + 1 then LogicEvaluationError.InvalidState
  else LogicEvaluationError.InvalidTransition

/-- `Into<MonitorEvaluationError>` for logic errors. -/
def LogicEvaluationError.into : LogicEvaluationError → MonitorEvaluationError
  | .InvalidState => .InvalidState
  | .InvalidTransition => .InvalidTransition

/-- The `DefaultHasher` state hashing is modelled as the identity on
tags (an injective hash); `StateTag` equality is byte equality. -/
def HashedState.fromTag (t : Tag) : Nat := t

/-- `LogicMonitorInner`: hashed current state, the error latch
(`monitor_state`: 0 ok, non-zero latched), allowed states and allowed
transitions frozen by the builder. -/
structure LogicMonitorInner where
  monitor_tag : Tag
  current_state : Nat
  monitor_state : Nat
  allowed_states : List Tag
  allowed_transitions : List (Tag × Tag)
deriving DecidableEq, Repr

namespace LogicMonitorInner

/-- `LogicMonitorInner::state`: with a non-zero latch the state cannot
be determined; otherwise the current hashed state is looked up among
the allowed states. -/
def state (m : LogicMonitorInner) : Except LogicEvaluationError Tag :=
  if m.monitor_state ≠ OK_STATE then Except.error LogicEvaluationError.InvalidState
  else
    match m.allowed_states.find? fun e => HashedState.fromTag e = m.current_state with
    | some s => Except.ok s
    | none => Except.error LogicEvaluationError.InvalidState

/-- `LogicMonitorInner::transition`: read the current state (failing
with InvalidState when the latch is set); latch InvalidState for an
unknown target, latch InvalidTransition for a disallowed edge,
otherwise store the new hashed state.  Returns the result and the
monitor after the call. -/
def transition (m : LogicMonitorInner) (new_state : Tag) :
    Except LogicEvaluationError Tag × LogicMonitorInner :=
  match m.state with
  | Except.error e => (Except.error e, m)
  | Except.ok current_state =>
    if m.allowed_states.contains new_state = false then
      (Except.error LogicEvaluationError.InvalidState,
        { m with monitor_state := LogicEvaluationError.InvalidState.toU8 })
    else if m.allowed_transitions.contains (current_state, new_state) = false then
      (Except.error LogicEvaluationError.InvalidTransition,
        { m with monitor_state := LogicEvaluationError.InvalidTransition.toU8 })
    else
      (Except.ok new_state, { m with current_state := HashedState.fromTag new_state })

/-- `LogicMonitorInner::evaluate`: a non-zero latch is reported to
`on_error` as the latched kind. -/
def evaluate (m : LogicMonitorInner) : List MonitorEvaluationError :=
  if m.monitor_state ≠ OK_STATE then [(LogicEvaluationError.fromU8 m.monitor_state).into]
  else []

end LogicMonitorInner

/-- The latch only ever holds 0, 1 or 2: `transition` stores nothing
else, so `From<u8>` never panics on a reachable latch. -/
theorem logic_latch_values_invariant (m : LogicMonitorInner) (s : Tag)
    (hm : m.monitor_state = 0 ∨ m.monitor_state = 1 ∨ m.monitor_state = 2) :
    (m.transition s).2.monitor_state = 0 ∨ (m.transition s).2.monitor_state = 1 ∨
      (m.transition s).2.monitor_state = 2 := by
  unfold LogicMonitorInner.transition
  match hst : m.state with
  | Except.error e => simpa using hm
  | Except.ok cur =>
    by_cases h1 : s ∈ m.allowed_states
    · by_cases h2 : (cur, s) ∈ m.allowed_transitions
      · simpa [h1, h2] using hm
      · simp [h1, h2, LogicEvaluationError.toU8, OK_STATE]
    · simp [h1, LogicEvaluationError.toU8, OK_STATE]

/-- C7 counterexample: with states {1,2,3}, transitions
{(1,2),(2,3)} and current state 1, the faulty call `transition 3`
latches InvalidTransition, but the next `transition 2` returns
InvalidState — not the latched InvalidTransition — refuting that every
subsequent transition call returns the latched error. -/
theorem logic_latched_error_counterexample :
    (LogicMonitorInner.transition ⟨0, 1, 0, [1, 2, 3], [(1, 2), (2, 3)]⟩ 3).1 =
      Except.error LogicEvaluationError.InvalidTransition ∧
    (LogicMonitorInner.transition ⟨0, 1, 0, [1, 2, 3], [(1, 2), (2, 3)]⟩ 3).2.monitor_state =
      LogicEvaluationError.InvalidTransition.toU8 ∧
    (LogicMonitorInner.transition
        (LogicMonitorInner.transition ⟨0, 1, 0, [1, 2, 3], [(1, 2), (2, 3)]⟩ 3).2 2).1 =
      Except.error LogicEvaluationError.InvalidState ∧
    LogicEvaluationError.InvalidState ≠ LogicEvaluationError.InvalidTransition := by
  decide

/-- C7 (amended): once a faulty transition call has latched
InvalidState or InvalidTransition, the latch is never cleared and every
subsequent `transition` and `state` call returns InvalidState (not
necessarily the latched kind), while `evaluate` emits the latched kind
on every call. -/
theorem logic_latched_error_spec (m : LogicMonitorInner) (s : Tag) :
    ((m.transition s).2.monitor_state = OK_STATE → m.monitor_state = OK_STATE) ∧
    (m.monitor_state ≠ OK_STATE →
      m.transition s = (Except.error LogicEvaluationError.InvalidState, m) ∧
      m.state = Except.error LogicEvaluationError.InvalidState) ∧
    (m.monitor_state = LogicEvaluationError.InvalidState.toU8 →
      m.evaluate = [MonitorEvaluationError.InvalidState]) ∧
    (m.monitor_state = LogicEvaluationError.InvalidTransition.toU8 →
      m.evaluate = [MonitorEvaluationError.InvalidTransition]) := by
  refine ⟨?_, ?_, ?_, ?_⟩
  · intro hafter
    by_contra hne
    have hstate : m.state = Except.error LogicEvaluationError.InvalidState := by
      simp [LogicMonitorInner.state, hne]
    rw [LogicMonitorInner.transition, hstate] at hafter
    simp at hafter
    exact hne hafter
  · intro hne
    have hstate : m.state = Except.error LogicEvaluationError.InvalidState := by
      simp [LogicMonitorInner.state, hne]
    constructor
    · rw [LogicMonitorInner.transition, hstate]
    · exact hstate
  · intro h1
    have hne : m.monitor_state ≠ OK_STATE := by
      rw [h1]
      decide
    simp [LogicMonitorInner.evaluate, hne, h1, LogicEvaluationError.toU8,
      LogicEvaluationError.fromU8, LogicEvaluationError.into]
  · intro h2
    have hne : m.monitor_state ≠ OK_STATE := by
      rw [h2]
      decide
    simp [LogicMonitorInner.evaluate, hne, h2, LogicEvaluationError.toU8,
      LogicEvaluationError.fromU8, LogicEvaluationError.into, OK_STATE]

/-- Witness for C7 (amended): a monitor with InvalidTransition latched
keeps the latch, answers InvalidState on transition, and reports
InvalidTransition from evaluate. -/
theorem logic_latched_error_spec_witness :
    (LogicMonitorInner.transition ⟨0, 1, 2, [1, 2, 3], [(1, 2), (2, 3)]⟩ 2).1 =
      Except.error LogicEvaluationError.InvalidState ∧
    (LogicMonitorInner.evaluate ⟨0, 1, 2, [1, 2, 3], [(1, 2), (2, 3)]⟩) =
      [MonitorEvaluationError.InvalidTransition] := by
  have h := logic_latched_error_spec ⟨0, 1, 2, [1, 2, 3], [(1, 2), (2, 3)]⟩ 2
  exact ⟨by rw [(h.2.1 (by decide)).1], h.2.2.2 (by decide)⟩

/-! ### Health monitor builder (lib.rs `HealthMonitorBuilder::build`) -/

/-- Rust `u64::is_multiple_of`: `self % rhs == 0`, with `rhs == 0`
reading `self == 0`. -/
def isMultipleOf (n rhs : Nat) : Bool :=
  if rhs = 0 then n = 0 else n % rhs = 0

/-- Heartbeat monitor builder (only the range survives to `build`). -/
structure HeartbeatBuilder where
  range : TimeRange
deriving DecidableEq, Repr

/-- `HealthMonitorBuilder::build`: fail with InvalidArgument unless the
supervisor API cycle is a multiple (in the `is_multiple_of` sense) of
the internal processing cycle; fail with WrongState when no monitors
were added; then build every sub-monitor — deadline builds cannot fail,
each heartbeat build enforces `2 * range.min > internal_processing_cycle`.
The constructed monitor maps are elided; only the error behaviour is
retained. -/
def HealthMonitorBuilder.build (supervisor_api_cycle_ms internal_processing_cycle_ms : Nat)
    (deadline_monitor_builders : List Tag)
    (heartbeat_monitor_builders : List (Tag × HeartbeatBuilder)) :
    Except HealthMonitorError Unit :=
  if isMultipleOf supervisor_api_cycle_ms internal_processing_cycle_ms = false then
    Except.error HealthMonitorError.InvalidArgument
  else if deadline_monitor_builders.length + heartbeat_monitor_builders.length = 0 then
    Except.error HealthMonitorError.WrongState
  else
    (heartbeat_monitor_builders.foldr
      (fun p acc =>
        match HeartbeatMonitorBuilder.build p.2.range.min internal_processing_cycle_ms with
        | Except.error e => Except.error e
        | Except.ok _ => acc)
      (Except.ok ()))

/-- C8 counterexample: with one deadline monitor,
`supervisor_api_cycle = 0 ms` and `internal_processing_cycle = 100 ms`,
0 is not a positive integer multiple of 100, yet `build` succeeds —
refuting that build fails with InvalidArgument iff the supervisor cycle
is not a positive multiple of the internal cycle. -/
theorem health_monitor_build_counterexample :
    (∀ k : Nat, 0 < k → (0 : Nat) ≠ k * 100) ∧
    HealthMonitorBuilder.build 0 100 [0] [] = Except.ok () := by
  constructor
  · intro k hk
    have : 100 ≤ k * 100 := Nat.le_mul_of_pos_left 100 hk
    omega
  · rfl

/-- C8 (amended): with at least one monitor added and every heartbeat
builder satisfying its own range check, `build` fails with
InvalidArgument iff the internal processing cycle does not divide the
supervisor API cycle (divisibility in ℕ: a zero internal cycle is
accepted exactly when the supervisor cycle is also zero, and a zero
supervisor cycle is accepted always); with the cycle check passing and
no monitors added it fails with WrongState. -/
theorem heartbeat_builds_ok (int : Nat) :
    ∀ hbs : List (Tag × HeartbeatBuilder), (∀ p ∈ hbs, int < p.2.range.min * 2) →
      hbs.foldr
        (fun p acc =>
          match HeartbeatMonitorBuilder.build p.2.range.min int with
          | Except.error e => Except.error e
          | Except.ok _ => acc)
        (Except.ok ()) = Except.ok ()
  | [], _ => rfl
  | p :: rest, hvalid => by
    have hp := hvalid p (List.mem_cons_self p rest)
    have hne : ¬ (p.2.range.min * 2 ≤ int) := by omega
    have hrest := heartbeat_builds_ok int rest fun q hq =>
      hvalid q (List.mem_cons_of_mem p hq)
    simp only [List.foldr_cons]
    have hb : HeartbeatMonitorBuilder.build p.2.range.min int = Except.ok () := by
      simp [HeartbeatMonitorBuilder.build, hne]
    rw [hb]
    exact hrest

theorem health_monitor_build_spec (sup int : Nat) (dls : List Tag)
    (hbs : List (Tag × HeartbeatBuilder))
    (hvalid : ∀ p ∈ hbs, int < p.2.range.min * 2)
    (hsome : dls.length + hbs.length ≠ 0) :
    (HealthMonitorBuilder.build sup int dls hbs =
        Except.error HealthMonitorError.InvalidArgument ↔ ¬ (int ∣ sup)) ∧
    (int ∣ sup → HealthMonitorBuilder.build sup int [] [] =
        Except.error HealthMonitorError.WrongState) := by
  have hmle : isMultipleOf sup int = true ↔ int ∣ sup := by
    unfold isMultipleOf
    by_cases h0 : int = 0
    · subst h0
      simp [Nat.zero_dvd, eq_comm]
    · simp [h0, Nat.dvd_iff_mod_eq_zero, eq_comm]
  constructor
  · constructor
    · intro hbuild
      intro hdvd
      have hmul : isMultipleOf sup int = true := hmle.mpr hdvd
      have hok : (hbs.foldr
          (fun p acc =>
            match HeartbeatMonitorBuilder.build p.2.range.min int with
            | Except.error e => Except.error e
            | Except.ok _ => acc)
          (Except.ok ())) = Except.ok () := heartbeat_builds_ok int hbs hvalid
      rw [HealthMonitorBuilder.build, hmul] at hbuild
      simp only [Bool.true_eq_false, if_false] at hbuild
      rw [if_neg hsome] at hbuild
      rw [hok] at hbuild
      exact absurd hbuild (by simp)
    · intro hndvd
      have hmul : isMultipleOf sup int = false := by
        rcases hb : isMultipleOf sup int with _ | _
        · rfl
        · exact absurd (hmle.mp hb) hndvd
      rw [HealthMonitorBuilder.build, hmul]
      simp
  · intro hdvd
    have hmul : isMultipleOf sup int = true := hmle.mpr hdvd
    rw [HealthMonitorBuilder.build, hmul]
    simp

/-- Witness for C8 (amended): supervisor cycle 500/internal 100 builds;
supervisor 123/internal 100 is rejected with InvalidArgument. -/
theorem health_monitor_build_spec_witness :
    HealthMonitorBuilder.build 500 100 [0] [] ≠
      Except.error HealthMonitorError.InvalidArgument ∧
    HealthMonitorBuilder.build 123 100 [0] [] =
      Except.error HealthMonitorError.InvalidArgument := by
  have h1 := (health_monitor_build_spec 500 100 [0] []
    (fun p hp => absurd hp (List.not_mem_nil p)) (by decide)).1
  have h2 := (health_monitor_build_spec 123 100 [0] []
    (fun p hp => absurd hp (List.not_mem_nil p)) (by decide)).1
  constructor
  · intro hcontra
    exact (h1.mp hcontra) (by decide)
  · exact h2.mpr (by decide)

/-! ### Worker (worker.rs) -/

/-- The any-error flag accumulated across all monitor callbacks in one
run step: `evals` lists, for each monitor evaluation handle in order,
the `(tag, error)` callback invocations its `evaluate` performs; every
invocation sets the flag. -/
def MonitoringLogic.has_any_error
    (evals : List (List (Tag × MonitorEvaluationError))) : Bool :=
  evals.foldl (fun acc errors => errors.foldl (fun _ _ => true) acc) false

/-- `MonitoringLogic` state: timestamp of the most recent
`notify_alive` (ms, absolute) and the supervisor API cycle (ms). -/
structure MonitoringLogic where
  last_notification : Nat
  supervisor_api_cycle : Nat
deriving DecidableEq, Repr

/-- Result of one `MonitoringLogic::run` call: whether `notify_alive`
was invoked, the returned bool (`false` = stop), and the state after
the call. -/
structure RunOutcome where
  notified : Bool
  keep_running : Bool
  state : MonitoringLogic
deriving DecidableEq, Repr

/-- `MonitoringLogic::run`: evaluate all handles in order, accumulating
the any-error flag; with no error, call `notify_alive` exactly when
`last_notification.elapsed() > supervisor_api_cycle` (strictly),
recording `now`; with any error, skip the notification and return
`false` so the worker thread stops.  `now` is the current instant in
ms; the elapsed time since the last notification is
`now - last_notification`. -/
def MonitoringLogic.run (logic : MonitoringLogic)
    (evals : List (List (Tag × MonitorEvaluationError))) (now : Nat) : RunOutcome :=
  if MonitoringLogic.has_any_error evals = false then
    if logic.supervisor_api_cycle < now - logic.last_notification then
      ⟨true, true, ⟨now, logic.supervisor_api_cycle⟩⟩
    else
      ⟨false, true, logic⟩
  else
    ⟨false, false, logic⟩

/-- One worker iteration observation: the callback invocations of each
monitor handle, and the instant at which the run step executes. -/
structure WorkerStep where
  evals : List (List (Tag × MonitorEvaluationError))
  now : Nat
deriving DecidableEq, Repr

/-- The `UniqueThreadRunner` worker-thread loop (cancellation not
triggered): each iteration runs `MonitoringLogic::run` and breaks when
it returns `false`.  Produces the per-iteration notification flags. -/
def UniqueThreadRunner.run_loop (logic : MonitoringLogic) :
    List WorkerStep → List Bool
  | [] => []
  | step :: rest =>
    let r := logic.run step.evals step.now
    r.notified :: (if r.keep_running then UniqueThreadRunner.run_loop r.state rest else [])

/-- C1 counterexample: in an error-free step with supervisor API cycle
5 ms and exactly 5 ms elapsed since the last notification, the elapsed
time is ≥ the cycle, yet `run` does not call `notify_alive` — the code
requires strictly greater elapsed time, refuting the claim's "≥". -/
theorem worker_run_counterexample :
    (5 : Nat) - 0 ≥ 5 ∧
    MonitoringLogic.has_any_error [[]] = false ∧
    (MonitoringLogic.run ⟨0, 5⟩ [[]] 5).notified = false := by
  decide

/-- C1 (amended): in every run step the handles are evaluated in order
with the any-error flag accumulated across their callbacks; if no error
was emitted, `notify_alive` is called exactly when the time since the
last notification is strictly greater than the supervisor API cycle
(recording the new timestamp) and the step continues; if any error was
emitted, `notify_alive` is not called, the step returns stop, and the
worker loop ends there, so `notify_alive` is never called again. -/
theorem worker_run_spec :
    (∀ (logic : MonitoringLogic) evals now,
      MonitoringLogic.has_any_error evals = false →
      ((logic.run evals now).notified = true ↔
        logic.supervisor_api_cycle < now - logic.last_notification) ∧
      (logic.run evals now).keep_running = true ∧
      (logic.run evals now).state.last_notification =
        (if logic.supervisor_api_cycle < now - logic.last_notification then now
          else logic.last_notification)) ∧
    (∀ (logic : MonitoringLogic) evals now,
      MonitoringLogic.has_any_error evals = true →
      (logic.run evals now).notified = false ∧
      (logic.run evals now).keep_running = false ∧
      (logic.run evals now).state = logic) ∧
    (∀ (logic : MonitoringLogic) (pre : List WorkerStep) (step : WorkerStep)
        (post : List WorkerStep),
      (∀ s ∈ pre, MonitoringLogic.has_any_error s.evals = false) →
      MonitoringLogic.has_any_error step.evals = true →
      UniqueThreadRunner.run_loop logic (pre ++ step :: post) =
        UniqueThreadRunner.run_loop logic pre ++ [false]) := by
  refine ⟨?_, ?_, ?_⟩
  · intro logic evals now herr
    by_cases hc : logic.supervisor_api_cycle < now - logic.last_notification
    · simp [MonitoringLogic.run, herr, hc]
    · simp [MonitoringLogic.run, herr, hc]
  · intro logic evals now herr
    simp [MonitoringLogic.run, herr]
  · intro logic pre step post hpre hstep
    induction pre generalizing logic with
    | nil =>
      have hr : logic.run step.evals step.now = ⟨false, false, logic⟩ := by
        simp [MonitoringLogic.run, hstep]
      simp [UniqueThreadRunner.run_loop, hr]
    | cons p rest ih =>
      have hp := hpre p (List.mem_cons_self p rest)
      have hkeep : (logic.run p.evals p.now).keep_running = true := by
        by_cases hc : logic.supervisor_api_cycle < p.now - logic.last_notification
        · simp [MonitoringLogic.run, hp, hc]
        · simp [MonitoringLogic.run, hp, hc]
      simp only [List.cons_append, List.append_eq, UniqueThreadRunner.run_loop, hkeep,
        if_true]
      rw [ih (logic.run p.evals p.now).state
        (fun s hs => hpre s (List.mem_cons_of_mem p hs))]

/-- Witness for C1 (amended): a healthy step at 3 ms notifies (cycle
0 ms), the faulted step at 6 ms does not and stops the loop; the step
scheduled after it never runs. -/
theorem worker_run_spec_witness :
    UniqueThreadRunner.run_loop ⟨0, 0⟩
      [⟨[], 3⟩, ⟨[[(1, MonitorEvaluationError.TooLate)]], 6⟩, ⟨[], 9⟩] = [true, false] := by
  have h := worker_run_spec.2.2 ⟨0, 0⟩ [⟨[], 3⟩]
    ⟨[[(1, MonitorEvaluationError.TooLate)]], 6⟩ [⟨[], 9⟩]
    (fun s hs => by
      simp at hs
      subst hs
      rfl)
    (by rfl)
  have hjoin : ([⟨[], 3⟩] ++ ⟨[[(1, MonitorEvaluationError.TooLate)]], 6⟩ :: [⟨[], 9⟩] :
      List WorkerStep) =
      [⟨[], 3⟩, ⟨[[(1, MonitorEvaluationError.TooLate)]], 6⟩, ⟨[], 9⟩] := rfl
  rw [hjoin] at h
  rw [h]
  rfl

end HealthMonLib
